import Mathlib

/-!
# Verification of the OpsIQ anomaly-triage core

A shallow embedding, in Lean 4, of the OpsIQ billing-anomaly triage pipeline:
the Threshold Memory store (`app/storage/memory_store.py`), the rule-based
detectors (`app/tools/anomaly_tool.py`), the scorer
(`app/tools/scoring_tool.py`), the case store (`app/storage/case_store.py`),
the feedback store (`app/storage/feedback_store.py`), the memory agent
(`app/agents/memory_agent.py`), the triage agent
(`app/agents/triage_agent.py`) and the feedback / triage API routes
(`app/api/routes_feedback.py`, `app/api/routes_triage.py`).

Modelling conventions:
* Monetary and threshold values are rationals (`ℚ`); Python `round(x, 2)`
  becomes round-half-even at two decimals over `ℚ`.
* SQLite tables become Lean lists of records in row-insertion order.
  Surrogate ids generated from `uuid` (`memory_id`, auto-generated
  `feedback_id`, auto-generated `run_id`) and wall-clock timestamps are
  nondeterministic in the source, so they are passed in as explicit
  parameters (`gen`, `now`).
* Python truthiness in the ubiquitous `get_memory(key) or default` pattern
  is modelled by `pyOr` (`0`, `0.0` and `""` are falsy).
* The external LLM (`llm_client.chat`) and the Modulate sentiment adapter
  are out-of-scope collaborators; their responses enter as parameters
  (`llm : String`, `analyze : ... → Option String`).  The eval store written
  by `evaluator_agent.evaluate_run` is disjoint from the state the claims
  talk about and is not modelled.
* Python's stable `list.sort(key=...)` is embedded as `List.mergeSort`
  (also a stable sort, hence extensionally identical on a total preorder).
-/

namespace OpsIQ

/-- `Severity` enum from `app/models/schemas.py`. -/
inductive Severity
  | low
  | medium
  | high
  | critical
deriving DecidableEq, Repr

/-- `Confidence` enum from `app/models/schemas.py`. -/
inductive Confidence
  | low
  | medium
  | high
deriving DecidableEq, Repr

/-- `CaseStatus` enum from `app/models/schemas.py` (`open` is a Lean keyword,
so the first constructor is `openCase`). -/
inductive CaseStatus
  | openCase
  | approved
  | rejected
  | falsePositive
deriving DecidableEq, Repr

/-- `FeedbackType` enum from `app/models/schemas.py`. -/
inductive FeedbackType
  | approve
  | reject
  | falsePositive
  | useful
  | notUseful
deriving DecidableEq, Repr

/-- A memory value as stored (JSON-encoded) in the `memory` table:
numbers or strings. -/
inductive MemValue
  | num (q : ℚ)
  | str (s : String)
deriving DecidableEq, Repr

/-- One row of the `memory` table (`app/storage/memory_store.py`).
The `memory_id` surrogate key (a random uuid, never read back by the core
logic) is not modelled. -/
structure MemEntry where
  key : String
  value : MemValue
  reason : String
  source : String
  updated_at : ℕ
deriving DecidableEq, Repr

/-- The `memory` SQLite table, rows in insertion order. -/
structure MemoryStore where
  entries : List MemEntry
deriving DecidableEq, Repr

/-- `_DEFAULTS` from `app/storage/memory_store.py`: the six seeded default
memory entries, all stamped with the same `now`. -/
def defaultEntries (now : ℕ) : List MemEntry :=
  [ { key := "duplicate_refund_window_hours", value := .num 2,
      reason := "Initial default: flag refunds from same customer with same amount within 2 hours",
      source := "system_default", updated_at := now },
    { key := "underbilling_threshold", value := .num 10,
      reason := "Initial default: flag invoices where expected - billed > $10",
      source := "system_default", updated_at := now },
    { key := "refund_spike_multiplier", value := .num 2,
      reason := "Initial default: flag region/day refund count > 2x rolling average",
      source := "system_default", updated_at := now },
    { key := "manual_credit_threshold", value := .num 200,
      reason := "Initial default: flag manual credits above $200",
      source := "system_default", updated_at := now },
    { key := "explanation_style", value := .str "detailed",
      reason := "Initial default: provide detailed explanations in case summaries",
      source := "system_default", updated_at := now },
    { key := "false_positive_penalty", value := .num 0,
      reason := "Initial default: no confidence penalty for patterns with prior false positives",
      source := "system_default", updated_at := now } ]

/-- `_seed_defaults_if_empty`: insert the defaults when the table is empty. -/
def seedDefaultsIfEmpty (now : ℕ) (m : MemoryStore) : MemoryStore :=
  if m.entries.isEmpty then ⟨defaultEntries now⟩ else m

/-- `SELECT value FROM memory WHERE key = ?` on the seeded table. -/
def lookupKey (m : MemoryStore) (key : String) : Option MemValue :=
  (m.entries.find? (fun e => e.key = key)).map (·.value)

/-- `get_memory(key)` from `app/storage/memory_store.py`: seeds defaults if
empty, then returns the stored value for `key` (`none` when absent). -/
def get_memory (now : ℕ) (m : MemoryStore) (key : String) : Option MemValue :=
  lookupKey (seedDefaultsIfEmpty now m) key

/-- `set_memory(key, value, reason, source)`: seed if empty, then upsert the
row for `key` in place (UPDATE keeps the row position; INSERT appends).
Returns the store together with the `MemoryEntry` the function returns. -/
def set_memory (now : ℕ) (m : MemoryStore) (key : String) (value : MemValue)
    (reason : String) (source : String) : MemoryStore × MemEntry :=
  let m1 := seedDefaultsIfEmpty now m
  let e : MemEntry :=
    { key := key, value := value, reason := reason, source := source, updated_at := now }
  if m1.entries.any (fun r => r.key = key) then
    (⟨m1.entries.map (fun r => if r.key = key then e else r)⟩, e)
  else
    (⟨m1.entries ++ [e]⟩, e)

/-- Descending-by-`updated_at` comparison used by `get_all_memory`
(`ORDER BY updated_at DESC`). -/
def newerFirst (a b : MemEntry) : Bool :=
  b.updated_at ≤ a.updated_at

/-- `get_all_memory()`: seed if empty, then all rows ordered by
`updated_at` descending (stable on ties, matching row order). -/
def get_all_memory (now : ℕ) (m : MemoryStore) : List MemEntry :=
  ((seedDefaultsIfEmpty now m).entries).mergeSort newerFirst

/-- `clear_memory()`: `DELETE FROM memory`. -/
def clear_memory (_m : MemoryStore) : MemoryStore :=
  ⟨[]⟩

/-- Python truthiness of a stored memory value: `0`, `0.0` and `""` are
falsy; everything else is truthy. -/
def truthy : MemValue → Bool
  | .num q => q ≠ 0
  | .str s => s ≠ ""

/-- The `get_memory(key) or default` idiom: `None` and falsy stored values
fall back to the caller-supplied default. -/
def pyOr (v : Option MemValue) (d : MemValue) : MemValue :=
  match v with
  | some x => if truthy x then x else d
  | none => d

/-- Numeric view of a memory value (threshold readers do arithmetic on it;
every threshold key holds a number). -/
def numValue : MemValue → ℚ
  | .num q => q
  | .str _ => 0

/-- String view of a memory value (used for `explanation_style`). -/
def strValue : MemValue → String
  | .num _ => ""
  | .str s => s

/-- `get_memory("duplicate_refund_window_hours") or 2`
(`app/tools/anomaly_tool.py`, `detect_duplicate_refunds`). -/
def readWindowHours (now : ℕ) (m : MemoryStore) : ℚ :=
  numValue (pyOr (get_memory now m "duplicate_refund_window_hours") (.num 2))

/-- `get_memory("underbilling_threshold") or 10.0`
(`app/tools/anomaly_tool.py`, `detect_underbilling`). -/
def readUnderbillingThreshold (now : ℕ) (m : MemoryStore) : ℚ :=
  numValue (pyOr (get_memory now m "underbilling_threshold") (.num 10))

/-- `get_memory("refund_spike_multiplier") or 2.0`
(`app/tools/anomaly_tool.py`, `detect_refund_spike`). -/
def readSpikeMultiplier (now : ℕ) (m : MemoryStore) : ℚ :=
  numValue (pyOr (get_memory now m "refund_spike_multiplier") (.num 2))

/-- `get_memory("manual_credit_threshold") or 200.0`
(`app/tools/anomaly_tool.py`, `detect_manual_credits`). -/
def readManualCreditThreshold (now : ℕ) (m : MemoryStore) : ℚ :=
  numValue (pyOr (get_memory now m "manual_credit_threshold") (.num 200))

/-- `get_memory("false_positive_penalty") or 0.0`
(`app/tools/scoring_tool.py`, `score_anomaly`; also the memory agent). -/
def readFpPenalty (now : ℕ) (m : MemoryStore) : ℚ :=
  numValue (pyOr (get_memory now m "false_positive_penalty") (.num 0))

/-- `get_memory("explanation_style") or "detailed"`
(`app/agents/memory_agent.py`, `_process_analyst_feedback`). -/
def readExplanationStyle (now : ℕ) (m : MemoryStore) : String :=
  strValue (pyOr (get_memory now m "explanation_style") (.str "detailed"))

/-- A value in the `affected_entities` mapping of an anomaly: a string, a
list of strings (`refund_ids`), or an integer (`refund_count`). -/
inductive AVal
  | s (v : String)
  | ls (v : List String)
  | n (v : ℤ)
deriving DecidableEq, Repr

/-- A raw anomaly dict as emitted by the detectors in
`app/tools/anomaly_tool.py`. -/
structure RawAnomaly where
  anomaly_type : String
  evidence : List String
  affected_entities : List (String × AVal)
  raw_impact : ℚ
deriving DecidableEq, Repr

/-- A raw anomaly enriched by `score_anomaly` with severity, confidence,
estimated impact and recommended action (the code mutates the dict in
place; here the enriched record carries all fields). -/
structure ScoredAnomaly where
  anomaly_type : String
  evidence : List String
  affected_entities : List (String × AVal)
  raw_impact : ℚ
  severity : Severity
  confidence : Confidence
  estimated_impact : ℚ
  recommended_action : String
deriving DecidableEq, Repr

/-- `_BASE_SCORES.get(atype, medium/medium)` from
`app/tools/scoring_tool.py`: base (severity, confidence) per anomaly type. -/
def baseScore (atype : String) : Severity × Confidence :=
  if atype = "duplicate_refund" then (.high, .high)
  else if atype = "underbilling" then (.high, .high)
  else if atype = "tier_mismatch" then (.high, .high)
  else if atype = "refund_spike" then (.medium, .medium)
  else if atype = "manual_credit" then (.medium, .medium)
  else (.medium, .medium)

/-- `_ACTIONS.get(atype, "Review and investigate.")` from
`app/tools/scoring_tool.py`. -/
def actionFor (atype : String) : String :=
  if atype = "duplicate_refund" then
    "Investigate and reverse the duplicate refund. Verify with payment processor."
  else if atype = "underbilling" then
    "Correct billing amount on next invoice cycle. Notify finance team."
  else if atype = "tier_mismatch" then
    "Align invoice tier with subscription tier. Issue corrected invoice."
  else if atype = "refund_spike" then
    "Review regional refund surge. Check for service outage or policy abuse."
  else if atype = "manual_credit" then
    "Audit manual credit approval chain. Verify authorization."
  else "Review and investigate."

/-- Round-half-even to the nearest integer (the tie-breaking rule of
Python's `round`). -/
def rndHalfEven (q : ℚ) : ℤ :=
  let f := ⌊q⌋
  let r := q - (f : ℚ)
  if r < 1/2 then f
  else if 1/2 < r then f + 1
  else if 2 ∣ f then f else f + 1

/-- Python `round(x, 2)` over rationals: round-half-even at two decimals. -/
def round2 (q : ℚ) : ℚ :=
  (rndHalfEven (q * 100) : ℚ) / 100

/-- `score_anomaly(anomaly, false_positive_types)` from
`app/tools/scoring_tool.py`.  Reads `false_positive_penalty` from the
memory store; `fpTypes` carries the caller's `false_positive_types` set
(a Lean list used only through membership). -/
def score_anomaly (now : ℕ) (mem : MemoryStore) (a : RawAnomaly)
    (fpTypes : List String) : ScoredAnomaly :=
  let base := baseScore a.anomaly_type
  let impact := a.raw_impact
  let sev1 :=
    if impact ≥ 200 then Severity.high
    else if impact < 50 then
      (if base.1 = Severity.high then Severity.medium else base.1)
    else base.1
  let fpPenalty := readFpPenalty now mem
  let hit := a.anomaly_type ∈ fpTypes
  let conf1 :=
    if hit then
      match base.2 with
      | .high => Confidence.medium
      | .medium => Confidence.low
      | .low => Confidence.low
    else base.2
  let impact1 :=
    if hit ∧ fpPenalty > 0 then impact * (1 - fpPenalty) else impact
  { anomaly_type := a.anomaly_type
    evidence := a.evidence
    affected_entities := a.affected_entities
    raw_impact := a.raw_impact
    severity := sev1
    confidence := conf1
    estimated_impact := round2 impact1
    recommended_action := actionFor a.anomaly_type }

/-- The `severity_order` dict of `score_all_anomalies`
(`.get(x, 9)` never falls through: `Severity` is the closed enum). -/
def severityOrderVal : Severity → ℕ
  | .critical => 0
  | .high => 1
  | .medium => 2
  | .low => 3

/-- The sort key comparison of `score_all_anomalies`: ascending severity
rank, then descending estimated impact (Python tuple key
`(severity_order, -estimated_impact)` compared lexicographically). -/
def rankLe (x y : ScoredAnomaly) : Bool :=
  decide (severityOrderVal x.severity < severityOrderVal y.severity) ||
    (decide (severityOrderVal x.severity = severityOrderVal y.severity) &&
      decide (y.estimated_impact ≤ x.estimated_impact))

/-- A feedback row (`FeedbackItem` in `app/models/schemas.py` /
the `feedback` table). -/
structure FeedbackItem where
  feedback_id : String
  target_type : String
  target_id : String
  feedback_type : FeedbackType
  comment : String
  timestamp : ℕ
deriving DecidableEq, Repr

/-- `get_false_positive_case_ids()` from `app/storage/feedback_store.py`:
`SELECT DISTINCT target_id ... WHERE target_type = 'case' AND
feedback_type = 'false_positive'`. -/
def get_false_positive_case_ids (fb : List FeedbackItem) : List String :=
  ((fb.filter (fun f =>
      f.target_type = "case" && f.feedback_type = FeedbackType.falsePositive)).map
    (·.target_id)).dedup

/-- `_PREFIX_TO_TYPE` from `score_all_anomalies`. -/
def prefixToType (p : String) : Option String :=
  if p = "DUP" then some "duplicate_refund"
  else if p = "UND" then some "underbilling"
  else if p = "TIE" then some "tier_mismatch"
  else if p = "REF" then some "refund_spike"
  else if p = "MAN" then some "manual_credit"
  else none

/-- The case-id → anomaly-type reverse lookup of `score_all_anomalies`:
split each case id on `-`, take the second component when there are at
least two, and map known prefixes back to anomaly types. -/
def fpTypesOfIds (ids : List String) : List String :=
  ids.filterMap (fun cid =>
    let parts := cid.splitOn "-"
    if parts.length ≥ 2 then
      match parts.get? 1 with
      | some p => prefixToType p
      | none => none
    else none)

/-- `score_all_anomalies(anomalies)` from `app/tools/scoring_tool.py`:
derive `false_positive_types` from the feedback log, score every anomaly,
then stable-sort by `(severity rank asc, estimated_impact desc)`. -/
def score_all_anomalies (now : ℕ) (mem : MemoryStore) (fb : List FeedbackItem)
    (anomalies : List RawAnomaly) : List ScoredAnomaly :=
  let fpTypes := fpTypesOfIds (get_false_positive_case_ids fb)
  let scored := anomalies.map (fun a => score_anomaly now mem a fpTypes)
  scored.mergeSort rankLe

/-- A triage case (`TriageCase` in `app/models/schemas.py` / a row of the
`cases` table).  The opaque sentiment-enrichment payload is modelled as an
optional string. -/
structure TriageCase where
  case_id : String
  run_id : String
  title : String
  anomaly_type : String
  severity : Severity
  confidence : Confidence
  estimated_impact : ℚ
  evidence : List String
  affected_entities : List (String × AVal)
  recommended_action : String
  status : CaseStatus
  created_at : ℕ
  sentiment_score : Option String
deriving DecidableEq, Repr

/-- The `cases` SQLite table, rows in insertion order. -/
structure CaseStore where
  cases : List TriageCase
deriving DecidableEq, Repr

/-- `save_case` from `app/storage/case_store.py`: `INSERT OR REPLACE`
keyed on `case_id`. -/
def save_case (cs : CaseStore) (c : TriageCase) : CaseStore :=
  if cs.cases.any (fun r => r.case_id = c.case_id) then
    ⟨cs.cases.map (fun r => if r.case_id = c.case_id then c else r)⟩
  else
    ⟨cs.cases ++ [c]⟩

/-- `save_cases`: bulk `save_case`. -/
def save_cases (cs : CaseStore) (l : List TriageCase) : CaseStore :=
  l.foldl save_case cs

/-- `get_case(case_id)`: first row with the given id, if any. -/
def get_case (cs : CaseStore) (cid : String) : Option TriageCase :=
  cs.cases.find? (fun r => r.case_id = cid)

/-- `update_case_status(case_id, status)`: `UPDATE cases SET status = ?
WHERE case_id = ?` — unconditional, with no guard on the current status. -/
def update_case_status (cs : CaseStore) (cid : String) (st : CaseStatus) : CaseStore :=
  ⟨cs.cases.map (fun r => if r.case_id = cid then { r with status := st } else r)⟩

/-- `clear_cases()`: `DELETE FROM cases`. -/
def clear_cases (_cs : CaseStore) : CaseStore :=
  ⟨[]⟩

/-- `save_feedback(item)` from `app/storage/feedback_store.py`:
auto-generate `feedback_id` when empty (the random id enters as `gen`),
then `INSERT OR REPLACE` keyed on `feedback_id`.  Returns the new log and
the saved item. -/
def save_feedback (gen : String) (log : List FeedbackItem) (item : FeedbackItem) :
    List FeedbackItem × FeedbackItem :=
  let item1 := if item.feedback_id = "" then { item with feedback_id := gen } else item
  if log.any (fun r => r.feedback_id = item1.feedback_id) then
    (log.map (fun r => if r.feedback_id = item1.feedback_id then item1 else r), item1)
  else
    (log ++ [item1], item1)

/-- Rendering of a numeric value inside a reason string (stands in for
Python f-string float formatting; no claim depends on the exact text). -/
def fmtQ (q : ℚ) : String :=
  toString q

/-- `_process_case_feedback` from `app/agents/memory_agent.py`: the memory
effect of one feedback item on a case.  `llm` is the (possibly empty) LLM
insight string computed by `_llm_reason_about_feedback`. -/
def processCaseFeedback (now : ℕ) (llm : String) (cs : CaseStore)
    (mem : MemoryStore) (fb : FeedbackItem) : MemoryStore × List MemEntry :=
  let caseOpt := get_case cs fb.target_id
  match fb.feedback_type with
  | .falsePositive =>
    let p := readFpPenalty now mem
    let np := min (p + 0.15) 0.5
    let ps := fmtQ p
    let nps := fmtQ np
    let tid := fb.target_id
    let reason0 := s!"Increased from {ps} to {nps} after false positive on {tid}"
    let llm100 := llm.take 100
    let reason1 := if llm ≠ "" then reason0 ++ s!" | LLM: {llm100}" else reason0
    let src := if llm ≠ "" then "feedback+llm" else "feedback"
    let r1 := set_memory now mem "false_positive_penalty" (.num np) reason1 src
    match caseOpt with
    | none => (r1.1, [r1.2])
    | some c =>
      if c.anomaly_type = "duplicate_refund" then
        let w := readWindowHours now r1.1
        let nw := max 1 (w - 0.5)
        let ws := fmtQ w
        let nws := fmtQ nw
        let r2 := set_memory now r1.1 "duplicate_refund_window_hours" (.num nw)
          s!"Narrowed from {ws}h to {nws}h after false positive — stricter matching"
          "feedback"
        (r2.1, [r1.2, r2.2])
      else if c.anomaly_type = "underbilling" then
        let t := readUnderbillingThreshold now r1.1
        let nt := t + 25
        let ts := fmtQ t
        let nts := fmtQ nt
        let r2 := set_memory now r1.1 "underbilling_threshold" (.num nt)
          s!"Raised from ${ts} to ${nts} after false positive — less sensitive"
          "feedback"
        (r2.1, [r1.2, r2.2])
      else if c.anomaly_type = "refund_spike" then
        let t := readSpikeMultiplier now r1.1
        let nt := t + 0.5
        let ts := fmtQ t
        let nts := fmtQ nt
        let r2 := set_memory now r1.1 "refund_spike_multiplier" (.num nt)
          s!"Raised from {ts}x to {nts}x after false positive — higher bar for spike detection"
          "feedback"
        (r2.1, [r1.2, r2.2])
      else if c.anomaly_type = "manual_credit" then
        let t := readManualCreditThreshold now r1.1
        let nt := t + 100
        let ts := fmtQ t
        let nts := fmtQ nt
        let r2 := set_memory now r1.1 "manual_credit_threshold" (.num nt)
          s!"Raised from ${ts} to ${nts} after false positive — less sensitive"
          "feedback"
        (r2.1, [r1.2, r2.2])
      else (r1.1, [r1.2])
  | .approve =>
    let p := readFpPenalty now mem
    if p > 0 then
      let np := max 0 (p - 0.05)
      let ps := fmtQ p
      let nps := fmtQ np
      let r1 := set_memory now mem "false_positive_penalty" (.num np)
        s!"Reduced from {ps} to {nps} after case approval — positive reinforcement"
        "feedback"
      (r1.1, [r1.2])
    else (mem, [])
  | .reject =>
    let p := readFpPenalty now mem
    let np := min (p + 0.05) 0.5
    let ps := fmtQ p
    let nps := fmtQ np
    let r1 := set_memory now mem "false_positive_penalty" (.num np)
      s!"Slightly increased from {ps} to {nps} after case rejection"
      "feedback"
    (r1.1, [r1.2])
  | _ => (mem, [])

/-- `_process_analyst_feedback` from `app/agents/memory_agent.py`. -/
def processAnalystFeedback (now : ℕ) (mem : MemoryStore) (fb : FeedbackItem) :
    MemoryStore × List MemEntry :=
  match fb.feedback_type with
  | .notUseful =>
    let cur := readExplanationStyle now mem
    let new := if cur = "detailed" then "concise" else "detailed"
    let r1 := set_memory now mem "explanation_style" (.str new)
      s!"Switched from '{cur}' to '{new}' after 'not useful' feedback"
      "feedback"
    (r1.1, [r1.2])
  | .useful =>
    let cur := readExplanationStyle now mem
    let r1 := set_memory now mem "explanation_style" (.str cur)
      s!"Reinforced '{cur}' style after positive feedback"
      "feedback"
    (r1.1, [r1.2])
  | _ => (mem, [])

/-- `process_feedback` from `app/agents/memory_agent.py`: dispatch on
`target_type`. -/
def process_feedback (now : ℕ) (llm : String) (cs : CaseStore)
    (mem : MemoryStore) (fb : FeedbackItem) : MemoryStore × List MemEntry :=
  if fb.target_type = "case" then processCaseFeedback now llm cs mem fb
  else if fb.target_type = "analyst" then processAnalystFeedback now mem fb
  else (mem, [])

/-- The request body of `POST /feedback`
(`FeedbackRequest` in `app/api/routes_feedback.py`). -/
structure FeedbackRequest where
  target_type : String
  target_id : String
  feedback_type : String
  comment : String
deriving DecidableEq, Repr

/-- The `FeedbackType(...)` enum constructor: `none` models the
`ValueError` raised on an unknown feedback type. -/
def parseFeedbackType (s : String) : Option FeedbackType :=
  if s = "approve" then some .approve
  else if s = "reject" then some .reject
  else if s = "false_positive" then some .falsePositive
  else if s = "useful" then some .useful
  else if s = "not_useful" then some .notUseful
  else none

/-- The persistent state touched by the feedback route: the case store,
the feedback log and the Threshold Memory.  (The eval store written by the
evaluator is disjoint from every claim and is not modelled.) -/
structure AppState where
  cases : CaseStore
  feedback : List FeedbackItem
  memory : MemoryStore
deriving DecidableEq, Repr

/-- `submit_feedback` from `app/api/routes_feedback.py`: construct the
`FeedbackItem` (an unknown feedback type raises before anything is
written), save it, update the case status for case-targeted
approve / false_positive / reject feedback, then run the memory agent. -/
def submit_feedback (now : ℕ) (gen : String) (llm : String) (st : AppState)
    (req : FeedbackRequest) : Except String AppState :=
  match parseFeedbackType req.feedback_type with
  | none => .error "ValueError: invalid FeedbackType"
  | some ft =>
    let item : FeedbackItem :=
      { feedback_id := "", target_type := req.target_type,
        target_id := req.target_id, feedback_type := ft,
        comment := req.comment, timestamp := now }
    let savedPair := save_feedback gen st.feedback item
    let cs1 :=
      if req.target_type = "case" then
        if req.feedback_type = "approve" then
          update_case_status st.cases req.target_id .approved
        else if req.feedback_type = "false_positive" then
          update_case_status st.cases req.target_id .falsePositive
        else if req.feedback_type = "reject" then
          update_case_status st.cases req.target_id .rejected
        else st.cases
      else st.cases
    let memPair := process_feedback now llm cs1 st.memory savedPair.2
    .ok { cases := cs1, feedback := savedPair.1, memory := memPair.1 }

/-- A row of the `customers` table (fields the detectors read). -/
structure Customer where
  customer_id : String
  customer_name : String
  region : String
deriving DecidableEq, Repr

/-- A row of the `subscriptions` table (fields the detectors read). -/
structure Subscription where
  customer_id : String
  plan_tier : String
  billing_status : String
deriving DecidableEq, Repr

/-- A row of the `invoices` table (fields the detectors read). -/
structure Invoice where
  invoice_id : String
  customer_id : String
  billed_amount : ℚ
  expected_amount : ℚ
  plan_tier_billed : String
  invoice_date : String
deriving DecidableEq, Repr

/-- A row of the `refunds` table; `refund_date` is an epoch timestamp in
seconds (the SQL compares `epoch(...)` differences and truncates to days). -/
structure Refund where
  refund_id : String
  customer_id : String
  amount : ℚ
  refund_date : ℤ
  reason : String
  processor : String
  linked_payment_id : String
deriving DecidableEq, Repr

/-- The tabular billing-data snapshot the detectors query. -/
structure Database where
  customers : List Customer
  subscriptions : List Subscription
  invoices : List Invoice
  refunds : List Refund
deriving DecidableEq, Repr

/-- `refund_date::date` — the calendar day of a refund. -/
def dayOf (r : Refund) : ℤ :=
  r.refund_date / 86400

/-- `detect_duplicate_refunds` from `app/tools/anomaly_tool.py`: self-join
of `refunds` on same customer and amount, `r1.refund_id < r2.refund_id`,
timestamps within the configured window. -/
def detect_duplicate_refunds (now : ℕ) (mem : MemoryStore) (db : Database) :
    List RawAnomaly :=
  let windowHours := readWindowHours now mem
  let windowSeconds := windowHours * 3600
  db.refunds.flatMap (fun r1 =>
    (db.refunds.filter (fun r2 =>
        decide (r1.customer_id = r2.customer_id) &&
        decide (r1.amount = r2.amount) &&
        decide (r1.refund_id < r2.refund_id) &&
        decide ((|((r2.refund_date - r1.refund_date : ℤ) : ℚ)|) < windowSeconds))).map
      (fun r2 =>
        { anomaly_type := "duplicate_refund"
          evidence :=
            [ "Refunds " ++ r1.refund_id ++ " and " ++ r2.refund_id ++
                " for customer " ++ r1.customer_id,
              "Same amount $" ++ fmtQ r1.amount ++ " within " ++
                fmtQ windowHours ++ "h window",
              "Dates: " ++ toString r1.refund_date ++ " → " ++ toString r2.refund_date,
              "Reason: " ++ r1.reason ]
          affected_entities :=
            [ ("customer_id", .s r1.customer_id),
              ("refund_ids", .ls [r1.refund_id, r2.refund_id]),
              ("payment_id", .s r1.linked_payment_id) ]
          raw_impact := r1.amount }))

/-- The anomaly record `detect_underbilling` builds for one invoice row
joined to one customer row. -/
def underbillingAnomaly (i : Invoice) (c : Customer) : RawAnomaly :=
  { anomaly_type := "underbilling"
    evidence :=
      [ "Invoice " ++ i.invoice_id ++ " for " ++ c.customer_name ++
          " (" ++ i.customer_id ++ ")",
        "Billed $" ++ fmtQ i.billed_amount ++ " but expected $" ++
          fmtQ i.expected_amount,
        "Revenue gap: $" ++ fmtQ (i.expected_amount - i.billed_amount),
        "Invoice date: " ++ i.invoice_date ]
    affected_entities :=
      [ ("customer_id", .s i.customer_id),
        ("customer_name", .s c.customer_name),
        ("invoice_id", .s i.invoice_id) ]
    raw_impact := i.expected_amount - i.billed_amount }

/-- `detect_underbilling` from `app/tools/anomaly_tool.py`: invoices joined
to customers, kept when `expected_amount - billed_amount > threshold`. -/
def detect_underbilling (now : ℕ) (mem : MemoryStore) (db : Database) :
    List RawAnomaly :=
  let threshold := readUnderbillingThreshold now mem
  db.invoices.flatMap (fun i =>
    if threshold < i.expected_amount - i.billed_amount then
      (db.customers.filter (fun c => decide (c.customer_id = i.customer_id))).map
        (underbillingAnomaly i)
    else [])

/-- `detect_tier_mismatch` from `app/tools/anomaly_tool.py`: invoices
joined to active subscriptions with a differing tier, joined to customers;
`raw_impact = max(expected - billed, 0)`. -/
def detect_tier_mismatch (db : Database) : List RawAnomaly :=
  db.invoices.flatMap (fun i =>
    (db.subscriptions.filter (fun s =>
        decide (s.customer_id = i.customer_id) &&
        decide (s.plan_tier ≠ i.plan_tier_billed) &&
        decide (s.billing_status = "active"))).flatMap (fun s =>
      (db.customers.filter (fun c => decide (c.customer_id = i.customer_id))).map
        (fun c =>
          { anomaly_type := "tier_mismatch"
            evidence :=
              [ "Invoice " ++ i.invoice_id ++ " for " ++ c.customer_name ++
                  " (" ++ i.customer_id ++ ")",
                "Subscription tier: " ++ s.plan_tier ++ ", but billed as: " ++
                  i.plan_tier_billed,
                "Billed $" ++ fmtQ i.billed_amount ++ " vs expected $" ++
                  fmtQ i.expected_amount,
                "Invoice date: " ++ i.invoice_date ]
            affected_entities :=
              [ ("customer_id", .s i.customer_id),
                ("customer_name", .s c.customer_name),
                ("invoice_id", .s i.invoice_id),
                ("subscription_tier", .s s.plan_tier),
                ("billed_tier", .s i.plan_tier_billed) ]
            raw_impact := max (i.expected_amount - i.billed_amount) 0 })))

/-- The refunds-to-region join behind `detect_refund_spike`. -/
def spikeJoined (db : Database) : List (String × Refund) :=
  db.refunds.flatMap (fun r =>
    (db.customers.filter (fun c => decide (c.customer_id = r.customer_id))).map
      (fun c => (c.region, r)))

/-- `detect_refund_spike` from `app/tools/anomaly_tool.py`: per region,
daily refund counts against `baseline * multiplier`, with the hard floor
`daily_count >= 3`; regions with fewer than two distinct days are skipped. -/
def detect_refund_spike (now : ℕ) (mem : MemoryStore) (db : Database) :
    List RawAnomaly :=
  let multiplier := readSpikeMultiplier now mem
  let joined := spikeJoined db
  let regions := (joined.map (·.1)).dedup
  regions.flatMap (fun region =>
    let rs := (joined.filter (fun p => decide (p.1 = region))).map (·.2)
    let days := (rs.map dayOf).dedup
    if days.length < 2 then []
    else
      let dailyCount := fun (d : ℤ) => (rs.filter (fun r => decide (dayOf r = d))).length
      let baseline : ℚ := ((days.map (fun d => ((dailyCount d : ℚ)))).sum) / (days.length : ℚ)
      let thresholdCount := baseline * multiplier
      days.flatMap (fun d =>
        let cnt := dailyCount d
        let amount := ((rs.filter (fun r => decide (dayOf r = d))).map (·.amount)).sum
        if (thresholdCount < (cnt : ℚ)) ∧ 3 ≤ cnt then
          [ { anomaly_type := "refund_spike"
              evidence :=
                [ "Region " ++ region ++ " on " ++ toString d ++ ": " ++
                    toString cnt ++ " refunds",
                  "Baseline average: " ++ fmtQ baseline ++ " refunds/day",
                  "Threshold (" ++ fmtQ multiplier ++ "x): " ++ fmtQ thresholdCount,
                  "Total refund amount: $" ++ fmtQ amount ]
              affected_entities :=
                [ ("region", .s region),
                  ("date", .s (toString d)),
                  ("refund_count", .n (cnt : ℤ)) ]
              raw_impact := amount } ]
        else []))

/-- `detect_manual_credits` from `app/tools/anomaly_tool.py`: refunds with
`reason = 'manual_credit'` above the threshold, joined to customers. -/
def detect_manual_credits (now : ℕ) (mem : MemoryStore) (db : Database) :
    List RawAnomaly :=
  let threshold := readManualCreditThreshold now mem
  db.refunds.flatMap (fun r =>
    if r.reason = "manual_credit" ∧ threshold < r.amount then
      (db.customers.filter (fun c => decide (c.customer_id = r.customer_id))).map
        (fun c =>
          { anomaly_type := "manual_credit"
            evidence :=
              [ "Refund " ++ r.refund_id ++ " for " ++ c.customer_name ++
                  " (" ++ r.customer_id ++ ")",
                "Manual credit of $" ++ fmtQ r.amount ++ " via " ++ r.processor,
                "Date: " ++ toString r.refund_date,
                "Exceeds threshold of $" ++ fmtQ threshold ]
            affected_entities :=
              [ ("customer_id", .s r.customer_id),
                ("customer_name", .s c.customer_name),
                ("refund_id", .s r.refund_id) ]
            raw_impact := r.amount })
    else [])

/-- `run_all_detectors` from `app/tools/anomaly_tool.py`: the five
detectors in order, results concatenated.  (The per-detector `try/except`
has no effect here: the embedded detectors are total.) -/
def run_all_detectors (now : ℕ) (mem : MemoryStore) (db : Database) :
    List RawAnomaly :=
  detect_duplicate_refunds now mem db ++
  detect_underbilling now mem db ++
  detect_tier_mismatch db ++
  detect_refund_spike now mem db ++
  detect_manual_credits now mem db

/-- Lookup into an `affected_entities` mapping (Python `dict.get`). -/
def entGet (ents : List (String × AVal)) (k : String) : Option AVal :=
  (ents.find? (fun p => p.1 = k)).map (·.2)

/-- `entities.get(k, default)` for string-valued fields. -/
def entGetS (ents : List (String × AVal)) (k : String) (d : String) : String :=
  match entGet ents k with
  | some (.s v) => v
  | _ => d

/-- `entities.get(k, [])` for the `refund_ids` list. -/
def entGetLs (ents : List (String × AVal)) (k : String) : List String :=
  match entGet ents k with
  | some (.ls v) => v
  | _ => []

/-- `entities.get(k, 0)` for the `refund_count` integer. -/
def entGetN (ents : List (String × AVal)) (k : String) : ℤ :=
  match entGet ents k with
  | some (.n v) => v
  | _ => 0

/-- `_generate_title` from `app/agents/triage_agent.py`. -/
def generateTitle (a : ScoredAnomaly) : String :=
  let ents := a.affected_entities
  if a.anomaly_type = "duplicate_refund" then
    "Duplicate Refund: " ++ entGetS ents "customer_id" "unknown" ++
      " (" ++ String.intercalate ", " (entGetLs ents "refund_ids") ++ ")"
  else if a.anomaly_type = "underbilling" then
    "Underbilling: " ++
      entGetS ents "customer_name" (entGetS ents "customer_id" "unknown") ++
      " (" ++ entGetS ents "invoice_id" "" ++ ")"
  else if a.anomaly_type = "tier_mismatch" then
    "Tier Mismatch: " ++
      entGetS ents "customer_name" (entGetS ents "customer_id" "unknown") ++
      " (" ++ entGetS ents "subscription_tier" "?" ++ " → billed as " ++
      entGetS ents "billed_tier" "?" ++ ")"
  else if a.anomaly_type = "refund_spike" then
    "Refund Spike: " ++ entGetS ents "region" "unknown" ++ " region — " ++
      toString (entGetN ents "refund_count") ++ " refunds on " ++
      entGetS ents "date" ""
  else if a.anomaly_type = "manual_credit" then
    "Suspicious Manual Credit: " ++
      entGetS ents "customer_name" (entGetS ents "customer_id" "unknown") ++
      " (" ++ entGetS ents "refund_id" "" ++ ")"
  else "Anomaly: " ++ a.anomaly_type

/-- Python `run_id[-6:]` (whole string when shorter than six characters). -/
def lastChars (n : ℕ) (s : String) : String :=
  String.mk (s.data.drop (s.data.length - n))

/-- Python `f"{index:02d}"`. -/
def pad2 (i : ℕ) : String :=
  if i < 10 then "0" ++ toString i else toString i

/-- `_anomaly_to_case` from `app/agents/triage_agent.py`:
`case_id = f"CASE-{short}-{run_id[-6:]}-{index:02d}"` with the three-letter
uppercased type prefix; every case starts `open` with no sentiment. -/
def anomalyToCase (a : ScoredAnomaly) (runId : String) (index : ℕ) (now : ℕ) :
    TriageCase :=
  let short := (a.anomaly_type.take 3).toUpper
  { case_id := "CASE-" ++ short ++ "-" ++ lastChars 6 runId ++ "-" ++ pad2 index
    run_id := runId
    title := generateTitle a
    anomaly_type := a.anomaly_type
    severity := a.severity
    confidence := a.confidence
    estimated_impact := a.estimated_impact
    evidence := a.evidence
    affected_entities := a.affected_entities
    recommended_action := a.recommended_action
    status := .openCase
    created_at := now
    sentiment_score := none }

/-- `run_triage` from `app/agents/triage_agent.py`: detect, score, build
cases, attach sentiment from the Modulate collaborator (`analyze`; `none`
models an enrichment failure, which leaves `sentiment_score` absent), then
persist.  `genRun` is the uuid-based run id used when none is supplied.
Returns the case store after the run together with the returned case list.
Note the early return: with no raw anomalies nothing is persisted. -/
def run_triage (now : ℕ) (genRun : String)
    (analyze : List String → String → String → Option String)
    (db : Database) (mem : MemoryStore) (fb : List FeedbackItem)
    (cs : CaseStore) (runIdOpt : Option String) : CaseStore × List TriageCase :=
  let rid :=
    match runIdOpt with
    | none => genRun
    | some r => if r = "" then genRun else r
  let raw := run_all_detectors now mem db
  if raw.isEmpty then (cs, [])
  else
    let scored := score_all_anomalies now mem fb raw
    let cases0 := scored.enum.map (fun p => anomalyToCase p.2 rid p.1 now)
    let cases1 := cases0.map (fun c =>
      { c with sentiment_score := analyze c.evidence c.title c.anomaly_type })
    (save_cases cs cases1, cases1)

/-- `POST /triage/rerun` from `app/api/routes_triage.py`: `clear_cases()`
then `run_triage()` with a fresh run id. -/
def rerun_triage (now : ℕ) (genRun : String)
    (analyze : List String → String → String → Option String)
    (db : Database) (mem : MemoryStore) (fb : List FeedbackItem)
    (cs : CaseStore) : CaseStore × List TriageCase :=
  run_triage now genRun analyze db mem fb (clear_cases cs) none

/-- Step 5 of `orchestrator.run_monitor_cycle`
(`app/agents/orchestrator.py`): `clear_cases()` then `run_triage(run_id)`. -/
def orchestratorTriage (now : ℕ) (genRun : String)
    (analyze : List String → String → String → Option String)
    (db : Database) (mem : MemoryStore) (fb : List FeedbackItem)
    (cs : CaseStore) (runId : String) : CaseStore × List TriageCase :=
  run_triage now genRun analyze db mem fb (clear_cases cs) (some runId)

/-! ## Store lemmas -/

/-- The full row stored under a key. -/
def findEntry (m : MemoryStore) (k : String) : Option MemEntry :=
  m.entries.find? (fun e => e.key = k)

theorem lookupKey_eq_findEntry (m : MemoryStore) (k : String) :
    lookupKey m k = (findEntry m k).map (·.value) := rfl

theorem defaultEntries_ne_nil (now : ℕ) : defaultEntries now ≠ [] := by
  simp [defaultEntries]

theorem seedDefaultsIfEmpty_ne_nil (now : ℕ) (m : MemoryStore) :
    (seedDefaultsIfEmpty now m).entries ≠ [] := by
  unfold seedDefaultsIfEmpty
  split
  · exact defaultEntries_ne_nil now
  · simp_all [List.isEmpty_iff]

theorem set_memory_entries_ne_nil (now : ℕ) (m : MemoryStore) (k : String)
    (v : MemValue) (r s : String) : (set_memory now m k v r s).1.entries ≠ [] := by
  dsimp only [set_memory]
  split
  · intro h
    exact seedDefaultsIfEmpty_ne_nil now m (by simpa using congrArg List.isEmpty h)
  · simp

theorem seed_of_ne_nil (now : ℕ) (m : MemoryStore) (h : m.entries ≠ []) :
    seedDefaultsIfEmpty now m = m := by
  unfold seedDefaultsIfEmpty
  simp [List.isEmpty_iff, h]

theorem find_map_upsert (l : List MemEntry) (k : String) (e : MemEntry)
    (he : e.key = k) :
    (l.map (fun r => if r.key = k then e else r)).find? (fun r => r.key = k) =
      if l.any (fun r => r.key = k) then some e else none := by
  induction l with
  | nil => simp
  | cons a t ih =>
    by_cases h : a.key = k
    · simp [List.find?, h, he]
    · simp only [List.map_cons, List.find?, List.any_cons]
      simp [h, ih]

theorem find_map_upsert_ne (l : List MemEntry) (k k' : String) (e : MemEntry)
    (he : e.key = k) (hne : k' ≠ k) :
    (l.map (fun r => if r.key = k then e else r)).find? (fun r => r.key = k') =
      l.find? (fun r => r.key = k') := by
  have hek : ¬ (e.key = k') := by rw [he]; exact fun hh => hne hh.symm
  induction l with
  | nil => simp
  | cons a t ih =>
    by_cases h : a.key = k
    · have ha : ¬ (a.key = k') := by rw [h]; exact fun hh => hne hh.symm
      simp [List.find?, h, hek, ha, ih, hne, Ne.symm hne]
    · by_cases h2 : a.key = k'
      · simp [List.find?, h, h2, hne, Ne.symm hne]
      · simp [List.find?, h, h2, ih, hne, Ne.symm hne]

theorem findEntry_set_same (now : ℕ) (m : MemoryStore) (k : String)
    (v : MemValue) (r s : String) :
    findEntry (set_memory now m k v r s).1 k =
      some { key := k, value := v, reason := r, source := s, updated_at := now } := by
  dsimp only [set_memory, findEntry]
  split
  · next hany =>
    rw [find_map_upsert _ k _ rfl]
    simp [hany]
  · next hany =>
    rw [List.find?_append]
    have hnone : (seedDefaultsIfEmpty now m).entries.find? (fun e => e.key = k) = none := by
      rw [List.find?_eq_none]
      intro x hx hc
      apply hany
      rw [List.any_eq_true]
      exact ⟨x, hx, hc⟩
    rw [hnone]
    simp [List.find?]

theorem findEntry_set_ne (now : ℕ) (m : MemoryStore) (k k' : String)
    (v : MemValue) (r s : String) (hne : k' ≠ k) :
    findEntry (set_memory now m k v r s).1 k' =
      findEntry (seedDefaultsIfEmpty now m) k' := by
  dsimp only [set_memory, findEntry]
  split
  · exact find_map_upsert_ne _ k k' _ rfl hne
  · rw [List.find?_append]
    cases h : (seedDefaultsIfEmpty now m).entries.find? (fun e => e.key = k') with
    | some e => rfl
    | none => simp [Option.orElse, List.find?, Ne.symm hne]

theorem get_memory_set_same (now : ℕ) (m : MemoryStore) (k : String)
    (v : MemValue) (r s : String) :
    get_memory now (set_memory now m k v r s).1 k = some v := by
  unfold get_memory
  rw [seed_of_ne_nil now _ (set_memory_entries_ne_nil now m k v r s),
    lookupKey_eq_findEntry, findEntry_set_same]
  rfl

theorem get_memory_set_ne (now : ℕ) (m : MemoryStore) (k k' : String)
    (v : MemValue) (r s : String) (hne : k' ≠ k) :
    get_memory now (set_memory now m k v r s).1 k' = get_memory now m k' := by
  unfold get_memory
  rw [seed_of_ne_nil now _ (set_memory_entries_ne_nil now m k v r s),
    lookupKey_eq_findEntry, findEntry_set_ne now m k k' v r s hne]
  rfl

/-- Reading a numeric key straight after writing it: the stored number comes
back, except that a stored `0` is falsy and falls back to the default. -/
theorem read_after_set (now : ℕ) (m : MemoryStore) (k : String) (q d : ℚ)
    (r s : String) :
    numValue (pyOr (get_memory now (set_memory now m k (.num q) r s).1 k) (.num d)) =
      if q = 0 then d else q := by
  rw [get_memory_set_same]
  by_cases h : q = 0 <;> simp [pyOr, truthy, h, numValue]

theorem readFpPenalty_set_fp (now : ℕ) (m : MemoryStore) (q : ℚ) (r s : String) :
    readFpPenalty now (set_memory now m "false_positive_penalty" (.num q) r s).1 = q := by
  unfold readFpPenalty
  rw [read_after_set]
  split <;> simp_all

theorem readFpPenalty_set_other (now : ℕ) (m : MemoryStore) (k : String)
    (v : MemValue) (r s : String) (hk : k ≠ "false_positive_penalty") :
    readFpPenalty now (set_memory now m k v r s).1 = readFpPenalty now m := by
  unfold readFpPenalty
  rw [get_memory_set_ne now m k _ v r s (Ne.symm hk)]

theorem readWindowHours_set_window (now : ℕ) (m : MemoryStore) (q : ℚ) (r s : String) :
    readWindowHours now (set_memory now m "duplicate_refund_window_hours" (.num q) r s).1 =
      if q = 0 then 2 else q := by
  unfold readWindowHours
  rw [read_after_set]

theorem readWindowHours_set_other (now : ℕ) (m : MemoryStore) (k : String)
    (v : MemValue) (r s : String) (hk : k ≠ "duplicate_refund_window_hours") :
    readWindowHours now (set_memory now m k v r s).1 = readWindowHours now m := by
  unfold readWindowHours
  rw [get_memory_set_ne now m k _ v r s (Ne.symm hk)]

/-! ## C8 — reset property of Threshold Memory -/

/-- C8: after `clear()` on Threshold Memory, the next `get_all()` returns
exactly the 6 seeded default entries — `duplicate_refund_window_hours=2`,
`underbilling_threshold=10.0`, `refund_spike_multiplier=2.0`,
`manual_credit_threshold=200.0`, `explanation_style="detailed"`,
`false_positive_penalty=0.0` — each with source `"system_default"`, and no
other entries. -/
theorem C8_clear_then_get_all_returns_defaults (m : MemoryStore) (now : ℕ) :
    get_all_memory now (clear_memory m) = defaultEntries now ∧
    (defaultEntries now).map (fun e => (e.key, e.value, e.source)) =
      [("duplicate_refund_window_hours", MemValue.num 2, "system_default"),
       ("underbilling_threshold", MemValue.num 10, "system_default"),
       ("refund_spike_multiplier", MemValue.num 2, "system_default"),
       ("manual_credit_threshold", MemValue.num 200, "system_default"),
       ("explanation_style", MemValue.str "detailed", "system_default"),
       ("false_positive_penalty", MemValue.num 0, "system_default")] := by
  constructor
  · unfold get_all_memory clear_memory seedDefaultsIfEmpty
    simp only [List.isEmpty_nil, if_pos]
    apply List.mergeSort_of_sorted
    simp [defaultEntries, newerFirst, List.pairwise_cons]
  · rfl

/-! ## C9 — the scorer only ever outputs severities high and medium -/

theorem baseScore_fst (atype : String) :
    (baseScore atype).1 = Severity.high ∨ (baseScore atype).1 = Severity.medium := by
  unfold baseScore
  split_ifs <;> simp

/-- C9: for every input anomaly (any type, any `raw_impact`, any
`false_positive_types` set, any memory state), the severity produced by
`score_anomaly` is always `"high"` or `"medium"`: `"critical"` and `"low"`
are never output, even though the ranking function `severity_order`
defines ranks for all four severity levels. -/
theorem C9_severity_always_high_or_medium (now : ℕ) (mem : MemoryStore)
    (a : RawAnomaly) (fpTypes : List String) :
    ((score_anomaly now mem a fpTypes).severity = Severity.high ∨
      (score_anomaly now mem a fpTypes).severity = Severity.medium) ∧
    severityOrderVal Severity.critical = 0 ∧ severityOrderVal Severity.high = 1 ∧
    severityOrderVal Severity.medium = 2 ∧ severityOrderVal Severity.low = 3 := by
  refine ⟨?_, rfl, rfl, rfl, rfl⟩
  dsimp only [score_anomaly]
  rcases baseScore_fst a.anomaly_type with h | h <;> split_ifs <;> simp [h]

/-! ## C10 — falsy stored thresholds read as their hard-coded defaults -/

/-- C10: every threshold read by the detectors and the scorer goes through
`get_memory(key) or default`, so a stored value `0` is treated as absent:
the reader substitutes the hard-coded default (2, 10.0, 2.0, 200.0, 0.0
respectively) instead of the stored 0. -/
theorem C10_zero_is_falsy_reads_default (now : ℕ) (m : MemoryStore) :
    (get_memory now m "duplicate_refund_window_hours" = some (.num 0) →
      readWindowHours now m = 2) ∧
    (get_memory now m "underbilling_threshold" = some (.num 0) →
      readUnderbillingThreshold now m = 10) ∧
    (get_memory now m "refund_spike_multiplier" = some (.num 0) →
      readSpikeMultiplier now m = 2) ∧
    (get_memory now m "manual_credit_threshold" = some (.num 0) →
      readManualCreditThreshold now m = 200) ∧
    (get_memory now m "false_positive_penalty" = some (.num 0) →
      readFpPenalty now m = 0) := by
  refine ⟨fun h => ?_, fun h => ?_, fun h => ?_, fun h => ?_, fun h => ?_⟩ <;>
  · first
    | (unfold readWindowHours; rw [h]; rfl)
    | (unfold readUnderbillingThreshold; rw [h]; rfl)
    | (unfold readSpikeMultiplier; rw [h]; rfl)
    | (unfold readManualCreditThreshold; rw [h]; rfl)
    | (unfold readFpPenalty; rw [h]; rfl)

/-- A memory state holding the literal `0` for every numeric threshold key. -/
def zeroThresholdStore : MemoryStore :=
  ⟨[ { key := "duplicate_refund_window_hours", value := .num 0, reason := "set to zero",
       source := "manual", updated_at := 1 },
     { key := "underbilling_threshold", value := .num 0, reason := "set to zero",
       source := "manual", updated_at := 1 },
     { key := "refund_spike_multiplier", value := .num 0, reason := "set to zero",
       source := "manual", updated_at := 1 },
     { key := "manual_credit_threshold", value := .num 0, reason := "set to zero",
       source := "manual", updated_at := 1 },
     { key := "false_positive_penalty", value := .num 0, reason := "set to zero",
       source := "manual", updated_at := 1 } ]⟩

/-- Witness for C10 at a concrete store holding `0` under all five keys. -/
theorem C10_witness :
    readWindowHours 0 zeroThresholdStore = 2 ∧
    readUnderbillingThreshold 0 zeroThresholdStore = 10 ∧
    readSpikeMultiplier 0 zeroThresholdStore = 2 ∧
    readManualCreditThreshold 0 zeroThresholdStore = 200 ∧
    readFpPenalty 0 zeroThresholdStore = 0 :=
  ⟨(C10_zero_is_falsy_reads_default 0 zeroThresholdStore).1 (by decide),
   (C10_zero_is_falsy_reads_default 0 zeroThresholdStore).2.1 (by decide),
   (C10_zero_is_falsy_reads_default 0 zeroThresholdStore).2.2.1 (by decide),
   (C10_zero_is_falsy_reads_default 0 zeroThresholdStore).2.2.2.1 (by decide),
   (C10_zero_is_falsy_reads_default 0 zeroThresholdStore).2.2.2.2 (by decide)⟩

/-! ## C3 — score_anomaly: severity bands, confidence downgrade, penalty -/

/-- C3: for every raw anomaly, `score_anomaly` forces severity to `"high"`
when `raw_impact >= 200`; else, when `raw_impact < 50` and the base
severity was `"high"`, it downgrades to `"medium"`; otherwise the per-type
base severity stands.  If the anomaly's type is in
`false_positive_types`, confidence is downgraded exactly one level
(high→medium→low, low stays low), and when `false_positive_penalty > 0`
the `estimated_impact` equals `round(raw_impact * (1 - penalty), 2)`; in
all other cases `estimated_impact` equals `round(raw_impact, 2)`. -/
theorem C3_score_anomaly_spec (now : ℕ) (mem : MemoryStore) (a : RawAnomaly)
    (fpTypes : List String) :
    (score_anomaly now mem a fpTypes).severity =
      (if a.raw_impact ≥ 200 then Severity.high
       else if a.raw_impact < 50 ∧ (baseScore a.anomaly_type).1 = Severity.high then
         Severity.medium
       else (baseScore a.anomaly_type).1) ∧
    (score_anomaly now mem a fpTypes).confidence =
      (if a.anomaly_type ∈ fpTypes then
        (match (baseScore a.anomaly_type).2 with
         | Confidence.high => Confidence.medium
         | Confidence.medium => Confidence.low
         | Confidence.low => Confidence.low)
       else (baseScore a.anomaly_type).2) ∧
    (score_anomaly now mem a fpTypes).estimated_impact =
      (if a.anomaly_type ∈ fpTypes ∧ readFpPenalty now mem > 0 then
        round2 (a.raw_impact * (1 - readFpPenalty now mem))
       else round2 a.raw_impact) := by
  refine ⟨?_, ?_, ?_⟩ <;> dsimp only [score_anomaly] <;> split_ifs <;> simp_all

/-! ## C4 — repeated false_positive feedback on a duplicate_refund case -/

/-- The Threshold Memory after one feedback submission is processed by the
memory agent (`_process_case_feedback`). -/
def fpFeedbackStep (now : ℕ) (llm : String) (cs : CaseStore) (fb : FeedbackItem)
    (m : MemoryStore) : MemoryStore :=
  (processCaseFeedback now llm cs m fb).1

theorem fpStep_reads (now : ℕ) (llm : String) (cs : CaseStore) (fb : FeedbackItem)
    (m : MemoryStore) (h1 : fb.feedback_type = FeedbackType.falsePositive)
    (c : TriageCase) (hc : get_case cs fb.target_id = some c)
    (hct : c.anomaly_type = "duplicate_refund") :
    readFpPenalty now (fpFeedbackStep now llm cs fb m) =
      min (readFpPenalty now m + 0.15) 0.5 ∧
    readWindowHours now (fpFeedbackStep now llm cs fb m) =
      max 1 (readWindowHours now m - 0.5) := by
  unfold fpFeedbackStep processCaseFeedback
  rw [h1, hc]
  dsimp only
  rw [hct]
  simp only [if_pos rfl, reduceIte]
  constructor
  · rw [readFpPenalty_set_other now _ "duplicate_refund_window_hours" _ _ _ (by decide),
      readFpPenalty_set_fp]
  · rw [readWindowHours_set_window]
    rw [readWindowHours_set_other now m "false_positive_penalty" _ _ _ (by decide)]
    have hof : max (1 : ℚ) (readWindowHours now m - 0.5) ≠ 0 := by
      intro h0
      have h1' : (1 : ℚ) ≤ max (1 : ℚ) (readWindowHours now m - 0.5) := le_max_left _ _
      rw [h0] at h1'
      norm_num at h1'
    simp [hof]

theorem readFpPenalty_defaults (now : ℕ) :
    readFpPenalty now ⟨defaultEntries now⟩ = 0 := by
  simp [readFpPenalty, get_memory, seedDefaultsIfEmpty, defaultEntries, lookupKey,
    List.find?, pyOr, truthy, numValue]

theorem readWindowHours_defaults (now : ℕ) :
    readWindowHours now ⟨defaultEntries now⟩ = 2 := by
  simp [readWindowHours, get_memory, seedDefaultsIfEmpty, defaultEntries, lookupKey,
    List.find?, pyOr, truthy, numValue]

/-- C4: starting from default Threshold Memory, submitting false_positive
feedback on a duplicate_refund case three times consecutively drives
`false_positive_penalty` through 0.0→0.15→0.30→0.45 (each submission adds
+0.15, capped at 0.5) and `duplicate_refund_window_hours` through
2→1.5→1→1 (each submission subtracts 0.5, floored at 1);
`false_positive_penalty` is non-decreasing across any sequence of
consecutive false_positive submissions. -/
theorem C4_fp_feedback_on_duplicate_refund (now : ℕ) (llm : String)
    (cs : CaseStore) (fb : FeedbackItem)
    (h1 : fb.feedback_type = FeedbackType.falsePositive)
    (c : TriageCase) (hc : get_case cs fb.target_id = some c)
    (hct : c.anomaly_type = "duplicate_refund") :
    (readFpPenalty now ⟨defaultEntries now⟩ = 0 ∧
      readFpPenalty now (fpFeedbackStep now llm cs fb ⟨defaultEntries now⟩) = 0.15 ∧
      readFpPenalty now (fpFeedbackStep now llm cs fb
        (fpFeedbackStep now llm cs fb ⟨defaultEntries now⟩)) = 0.3 ∧
      readFpPenalty now (fpFeedbackStep now llm cs fb (fpFeedbackStep now llm cs fb
        (fpFeedbackStep now llm cs fb ⟨defaultEntries now⟩))) = 0.45) ∧
    (readWindowHours now ⟨defaultEntries now⟩ = 2 ∧
      readWindowHours now (fpFeedbackStep now llm cs fb ⟨defaultEntries now⟩) = 1.5 ∧
      readWindowHours now (fpFeedbackStep now llm cs fb
        (fpFeedbackStep now llm cs fb ⟨defaultEntries now⟩)) = 1 ∧
      readWindowHours now (fpFeedbackStep now llm cs fb (fpFeedbackStep now llm cs fb
        (fpFeedbackStep now llm cs fb ⟨defaultEntries now⟩))) = 1) ∧
    (∀ m : MemoryStore, readFpPenalty now m ≤ 0.5 →
      readFpPenalty now m ≤ readFpPenalty now (fpFeedbackStep now llm cs fb m)) := by
  have hstep := fun m => fpStep_reads now llm cs fb m h1 c hc hct
  have hp0 := readFpPenalty_defaults now
  have hw0 := readWindowHours_defaults now
  refine ⟨⟨hp0, ?_, ?_, ?_⟩, ⟨hw0, ?_, ?_, ?_⟩, ?_⟩
  · rw [(hstep _).1, hp0]; norm_num [min_def]
  · rw [(hstep _).1, (hstep _).1, hp0]; norm_num [min_def]
  · rw [(hstep _).1, (hstep _).1, (hstep _).1, hp0]; norm_num [min_def]
  · rw [(hstep _).2, hw0]; norm_num [max_def]
  · rw [(hstep _).2, (hstep _).2, hw0]; norm_num [max_def]
  · rw [(hstep _).2, (hstep _).2, (hstep _).2, hw0]; norm_num [max_def]
  · intro m hm
    rw [(hstep m).1]
    exact le_min (by linarith) hm

/-- A concrete open duplicate_refund case used in witnesses. -/
def c4Case : TriageCase :=
  { case_id := "CASE-DUP-run001-00", run_id := "RUN-run001",
    title := "Duplicate Refund: C003 (R001, R002)",
    anomaly_type := "duplicate_refund", severity := .high, confidence := .high,
    estimated_impact := 150, evidence := [], affected_entities := [],
    recommended_action := "", status := .openCase, created_at := 0,
    sentiment_score := none }

/-- A store holding `c4Case`. -/
def c4Store : CaseStore := ⟨[c4Case]⟩

/-- A false_positive feedback item aimed at `c4Case`. -/
def c4Fb : FeedbackItem :=
  { feedback_id := "FB-c4", target_type := "case",
    target_id := "CASE-DUP-run001-00", feedback_type := .falsePositive,
    comment := "", timestamp := 0 }

/-- Witness for C4: the first submission moves the penalty to 0.15, the
window to 1.5h. -/
theorem C4_witness :
    readFpPenalty 0 (fpFeedbackStep 0 "" c4Store c4Fb ⟨defaultEntries 0⟩) = 0.15 ∧
    readWindowHours 0 (fpFeedbackStep 0 "" c4Store c4Fb ⟨defaultEntries 0⟩) = 1.5 ∧
    readFpPenalty 0 ⟨defaultEntries 0⟩ ≤ 0.5 ∧
    readFpPenalty 0 ⟨defaultEntries 0⟩ ≤
      readFpPenalty 0 (fpFeedbackStep 0 "" c4Store c4Fb ⟨defaultEntries 0⟩) :=
  ⟨(C4_fp_feedback_on_duplicate_refund 0 "" c4Store c4Fb rfl c4Case (by decide) rfl).1.2.1,
   (C4_fp_feedback_on_duplicate_refund 0 "" c4Store c4Fb rfl c4Case (by decide) rfl).2.1.2.1,
   by rw [readFpPenalty_defaults]; norm_num,
   (C4_fp_feedback_on_duplicate_refund 0 "" c4Store c4Fb rfl c4Case (by decide) rfl).2.2
     ⟨defaultEntries 0⟩ (by rw [readFpPenalty_defaults]; norm_num)⟩

/-! ## C5 — score_all ranking: sorted, a permutation, and stable -/

theorem rankLe_trans (a b c : ScoredAnomaly) :
    rankLe a b → rankLe b c → rankLe a c := by
  simp only [rankLe, Bool.or_eq_true, Bool.and_eq_true, decide_eq_true_eq]
  rintro (h1 | ⟨h1, h1'⟩) (h2 | ⟨h2, h2'⟩)
  · exact Or.inl (h1.trans h2)
  · exact Or.inl (h2 ▸ h1)
  · exact Or.inl (h1 ▸ h2)
  · exact Or.inr ⟨h1.trans h2, h2'.trans h1'⟩

theorem rankLe_total (a b : ScoredAnomaly) : rankLe a b || rankLe b a := by
  simp only [rankLe, Bool.or_eq_true, Bool.and_eq_true, decide_eq_true_eq]
  rcases lt_trichotomy (severityOrderVal a.severity) (severityOrderVal b.severity)
    with h | h | h
  · exact Or.inl (Or.inl h)
  · rcases le_total b.estimated_impact a.estimated_impact with hi | hi
    · exact Or.inl (Or.inr ⟨h, hi⟩)
    · exact Or.inr (Or.inr ⟨h.symm, hi⟩)
  · exact Or.inr (Or.inl h)

/-- C5: for every input batch, the output of `score_all` is sorted so that
for all adjacent pairs `(a, b)`, `severity_rank(a) <= severity_rank(b)`
(critical=0, high=1, medium=2, low=3) and, when the ranks are equal,
`estimated_impact(a) >= estimated_impact(b)`; the output is a permutation
of the scored input; and anomalies equal on both sort keys keep their
detector-emission order (the sort is stable). -/
theorem C5_score_all_sorted_stable (now : ℕ) (mem : MemoryStore)
    (fb : List FeedbackItem) (anomalies : List RawAnomaly) :
    List.Chain'
      (fun x y => severityOrderVal x.severity ≤ severityOrderVal y.severity ∧
        (severityOrderVal x.severity = severityOrderVal y.severity →
          y.estimated_impact ≤ x.estimated_impact))
      (score_all_anomalies now mem fb anomalies) ∧
    List.Perm (score_all_anomalies now mem fb anomalies)
      (anomalies.map (fun a => score_anomaly now mem a
        (fpTypesOfIds (get_false_positive_case_ids fb)))) ∧
    (∀ x y : ScoredAnomaly,
      severityOrderVal x.severity = severityOrderVal y.severity →
      x.estimated_impact = y.estimated_impact →
      List.Sublist [x, y] (anomalies.map (fun a => score_anomaly now mem a
        (fpTypesOfIds (get_false_positive_case_ids fb)))) →
      List.Sublist [x, y] (score_all_anomalies now mem fb anomalies)) := by
  refine ⟨?_, ?_, ?_⟩
  · apply List.Pairwise.chain'
    have hs := List.sorted_mergeSort
      (fun a b c => rankLe_trans a b c) (fun a b => rankLe_total a b)
      (anomalies.map (fun a => score_anomaly now mem a
        (fpTypesOfIds (get_false_positive_case_ids fb))))
    apply List.Pairwise.imp _ hs
    intro x y h
    simp only [rankLe, Bool.or_eq_true, Bool.and_eq_true, decide_eq_true_eq] at h
    rcases h with h | ⟨h, h'⟩
    · exact ⟨le_of_lt h, fun he => absurd he (ne_of_lt h)⟩
    · exact ⟨le_of_eq h, fun _ => h'⟩
  · exact List.mergeSort_perm _ _
  · intro x y he hi hsub
    exact List.pair_sublist_mergeSort
      (fun a b c => rankLe_trans a b c) (fun a b => rankLe_total a b)
      (by simp [rankLe, he, hi]) hsub

/-- A concrete raw underbilling anomaly for the C5 witness. -/
def c5Raw : RawAnomaly :=
  { anomaly_type := "underbilling", evidence := ["gap"], affected_entities := [],
    raw_impact := 100 }

/-- Its scored form under default memory and an empty feedback log. -/
def c5Scored : ScoredAnomaly :=
  score_anomaly 0 ⟨defaultEntries 0⟩ c5Raw
    (fpTypesOfIds (get_false_positive_case_ids []))

/-- Witness for C5: two key-equal scored anomalies keep their emission
order through `score_all_anomalies`. -/
theorem C5_witness :
    List.Sublist [c5Scored, c5Scored]
      (score_all_anomalies 0 ⟨defaultEntries 0⟩ [] [c5Raw, c5Raw]) :=
  (C5_score_all_sorted_stable 0 ⟨defaultEntries 0⟩ [] [c5Raw, c5Raw]).2.2
    c5Scored c5Scored rfl rfl (List.Sublist.refl _)

/-! ## C7 — underbilling detector: strict-gap iff and threshold monotonicity -/

/-- The revenue gap of an invoice. -/
def invoiceGap (i : Invoice) : ℚ :=
  i.expected_amount - i.billed_amount

theorem flatMap_sublist {α β : Type} (l : List α) (f g : α → List β)
    (h : ∀ x ∈ l, List.Sublist (f x) (g x)) :
    List.Sublist (l.flatMap f) (l.flatMap g) := by
  induction l with
  | nil => simp
  | cons a t ih =>
    simp only [List.flatMap_cons]
    exact List.Sublist.append (h a (List.mem_cons_self a t))
      (ih (fun x hx => h x (List.mem_cons_of_mem a hx)))

/-- C7: for every invoice, the underbilling detector emits a `RawAnomaly`
for it if and only if `expected_amount - billed_amount > underbilling_threshold`
(strict), with `raw_impact` equal to the gap; and for unchanged invoice
data, a higher threshold flags a sub-sequence (hence no more) anomalies
than a lower one.  The iff direction needs referential integrity: unique
invoice ids and exactly one matching customer row per invoice. -/
theorem C7_underbilling_iff_and_monotone (now : ℕ) (db : Database)
    (hIds : (db.invoices.map (·.invoice_id)).Nodup)
    (hCust : ∀ j ∈ db.invoices,
      (db.customers.filter (fun c => decide (c.customer_id = j.customer_id))).length
        = 1) :
    (∀ mem : MemoryStore, ∀ i ∈ db.invoices,
      ((∃ a ∈ detect_underbilling now mem db,
          entGet a.affected_entities "invoice_id" = some (.s i.invoice_id) ∧
          a.raw_impact = invoiceGap i) ↔
        readUnderbillingThreshold now mem < invoiceGap i)) ∧
    (∀ mem1 mem2 : MemoryStore,
      readUnderbillingThreshold now mem1 ≤ readUnderbillingThreshold now mem2 →
      List.Sublist (detect_underbilling now mem2 db) (detect_underbilling now mem1 db) ∧
      (detect_underbilling now mem2 db).length ≤ (detect_underbilling now mem1 db).length) := by
  constructor
  · intro mem i hi
    constructor
    · rintro ⟨a, ha, hia, himp⟩
      rw [detect_underbilling, List.mem_flatMap] at ha
      obtain ⟨j, hj, haj⟩ := ha
      by_cases hgap :
          readUnderbillingThreshold now mem < j.expected_amount - j.billed_amount
      · rw [if_pos hgap] at haj
        rw [List.mem_map] at haj
        obtain ⟨c, _, hac⟩ := haj
        subst hac
        simp [underbillingAnomaly, entGet, List.find?] at hia
        have hji : j = i :=
          List.inj_on_of_nodup_map hIds hj hi hia
        rw [invoiceGap, ← hji]
        exact hgap
      · rw [if_neg hgap] at haj
        exact absurd haj (List.not_mem_nil a)
    · intro hgap
      obtain ⟨c, hc⟩ := List.length_eq_one.mp (hCust i hi)
      have hcmem : c ∈ db.customers.filter (fun x => decide (x.customer_id = i.customer_id)) := by
        rw [hc]
        exact List.mem_cons_self c []
      refine ⟨underbillingAnomaly i c, ?_, ?_, ?_⟩
      · rw [detect_underbilling, List.mem_flatMap]
        exact ⟨i, hi, by
          rw [if_pos (by rw [invoiceGap] at hgap; exact hgap)]
          exact List.mem_map_of_mem _ hcmem⟩
      · simp [underbillingAnomaly, entGet, List.find?]
      · rfl
  · intro mem1 mem2 hle
    have hsub : List.Sublist (detect_underbilling now mem2 db)
        (detect_underbilling now mem1 db) := by
      rw [detect_underbilling, detect_underbilling]
      apply flatMap_sublist
      intro i _
      by_cases h2 :
          readUnderbillingThreshold now mem2 < i.expected_amount - i.billed_amount
      · rw [if_pos h2, if_pos (lt_of_le_of_lt hle h2)]
      · rw [if_neg h2]
        exact List.nil_sublist _
    exact ⟨hsub, hsub.length_le⟩

/-- A concrete customer row for the C7 witness. -/
def c7Customer : Customer :=
  { customer_id := "C001", customer_name := "Acme Corp", region := "NA" }

/-- A concrete underbilled invoice (gap $100) for the C7 witness. -/
def c7Invoice : Invoice :=
  { invoice_id := "INV001", customer_id := "C001", billed_amount := 199,
    expected_amount := 299, plan_tier_billed := "basic",
    invoice_date := "2026-01-01" }

/-- A one-invoice database for the C7 witness. -/
def c7Db : Database :=
  { customers := [c7Customer], subscriptions := [], invoices := [c7Invoice],
    refunds := [] }

/-- A memory state with a raised underbilling threshold ($35). -/
def c7Mem2 : MemoryStore :=
  ⟨[ { key := "underbilling_threshold", value := .num 35,
       reason := "raised", source := "feedback", updated_at := 1 } ]⟩

/-- Witness for C7 at a concrete database and thresholds $10 vs $35. -/
theorem C7_witness :
    ((∃ a ∈ detect_underbilling 0 ⟨defaultEntries 0⟩ c7Db,
        entGet a.affected_entities "invoice_id" = some (.s c7Invoice.invoice_id) ∧
        a.raw_impact = invoiceGap c7Invoice) ↔
      readUnderbillingThreshold 0 ⟨defaultEntries 0⟩ < invoiceGap c7Invoice) ∧
    List.Sublist (detect_underbilling 0 c7Mem2 c7Db)
      (detect_underbilling 0 ⟨defaultEntries 0⟩ c7Db) :=
  ⟨(C7_underbilling_iff_and_monotone 0 c7Db (by decide) (by decide)).1
      ⟨defaultEntries 0⟩ c7Invoice (by decide),
   ((C7_underbilling_iff_and_monotone 0 c7Db (by decide) (by decide)).2
      ⟨defaultEntries 0⟩ c7Mem2 (by decide)).1⟩

/-! ## C1 — case-status transitions are not terminal -/

/-- An already-approved case. -/
def c1Case : TriageCase :=
  { case_id := "CASE-UND-run001-00", run_id := "RUN-run001",
    title := "Underbilling: Acme Corp (INV001)", anomaly_type := "underbilling",
    severity := .high, confidence := .high, estimated_impact := 100,
    evidence := [], affected_entities := [], recommended_action := "",
    status := .approved, created_at := 0, sentiment_score := none }

/-- App state holding only the approved case, with default memory. -/
def c1State : AppState := ⟨⟨[c1Case]⟩, [], ⟨defaultEntries 0⟩⟩

/-- Reject feedback aimed at the approved case. -/
def c1Req : FeedbackRequest := ⟨"case", "CASE-UND-run001-00", "reject", ""⟩

/-- The status of a case after a feedback call (`none` when the call
errored). -/
def statusAfter (r : Except String AppState) (cid : String) :
    Option (Option CaseStatus) :=
  match r with
  | .ok st => some ((get_case st.cases cid).map (·.status))
  | .error _ => none

/-- C1 counterexample: submitting reject feedback against a case whose
status is already `approved` re-mutates the status to `rejected` —
`update_case_status` has no guard on the current status, so `approved` is
not terminal and the claim's "leaves the case's status field unchanged"
fails at this input. -/
theorem C1_counterexample :
    (get_case c1State.cases "CASE-UND-run001-00").map (·.status) =
      some CaseStatus.approved ∧
    statusAfter (submit_feedback 0 "FB-001" "" c1State c1Req)
      "CASE-UND-run001-00" = some (some CaseStatus.rejected) ∧
    some (some CaseStatus.rejected) ≠ some (some CaseStatus.approved) := by
  refine ⟨rfl, by decide, by decide⟩

/-- C1 amended: `submit_feedback` on a case target always appends the item
to the feedback log and unconditionally overwrites the case status with
the status corresponding to the feedback type (approve→approved,
false_positive→false_positive, reject→rejected; useful/not_useful leave
it unchanged) — regardless of the case's current status.  The three
resulting statuses are not terminal. -/
theorem C1_amended_status_unconditionally_overwritten (now : ℕ)
    (gen llm : String) (st : AppState) (req : FeedbackRequest)
    (ft : FeedbackType) (hp : parseFeedbackType req.feedback_type = some ft)
    (hc : req.target_type = "case") :
    (submit_feedback now gen llm st req).map (fun s => (s.cases, s.feedback)) =
      Except.ok
        ((match ft with
          | .approve => update_case_status st.cases req.target_id .approved
          | .falsePositive => update_case_status st.cases req.target_id .falsePositive
          | .reject => update_case_status st.cases req.target_id .rejected
          | _ => st.cases),
         (save_feedback gen st.feedback
           { feedback_id := "", target_type := req.target_type,
             target_id := req.target_id, feedback_type := ft,
             comment := req.comment, timestamp := now }).1) := by
  unfold submit_feedback
  simp only [hp]
  have hft := hp
  unfold parseFeedbackType at hft
  split_ifs at hft with h1 h2 h3 h4 h5 <;>
    (injection hft with he; try (subst he; simp_all [Except.map]))

/-- Witness for the amended C1 at the concrete approved case. -/
theorem C1_witness :
    (submit_feedback 0 "FB-001" "" c1State c1Req).map
        (fun s => (s.cases, s.feedback)) =
      Except.ok
        (update_case_status c1State.cases c1Req.target_id .rejected,
         (save_feedback "FB-001" c1State.feedback
           { feedback_id := "", target_type := c1Req.target_type,
             target_id := c1Req.target_id, feedback_type := .reject,
             comment := c1Req.comment, timestamp := 0 }).1) :=
  C1_amended_status_unconditionally_overwritten 0 "FB-001" "" c1State c1Req
    .reject rfl rfl

/-! ## C2 — invalid feedback input vs Threshold Memory mutation -/

theorem update_case_status_missing (cs : CaseStore) (cid : String)
    (s : CaseStatus) (h : get_case cs cid = none) :
    update_case_status cs cid s = cs := by
  unfold get_case at h
  rw [List.find?_eq_none] at h
  unfold update_case_status
  cases cs with
  | mk l =>
    congr 1
    have : ∀ a ∈ l, (if a.case_id = cid then { a with status := s } else a) = a := by
      intro a ha
      have hne := h a ha
      simp only [decide_eq_true_eq] at hne
      rw [if_neg hne]
    exact (List.map_congr_left this).trans (List.map_id l)

/-- Shared characterisation: a `false_positive` feedback on a case target
whose `target_id` matches no stored case is not rejected — the call
succeeds and still bumps `false_positive_penalty` by +0.15 (capped at
0.5), while every other memory key keeps its (post-seeding) entry. -/
theorem save_feedback_snd (gen : String) (log : List FeedbackItem)
    (item : FeedbackItem) :
    (save_feedback gen log item).2 =
      if item.feedback_id = "" then { item with feedback_id := gen } else item := by
  unfold save_feedback
  split <;> (dsimp only; split <;> rfl)

theorem submit_fp_unknown_target_memory (now : ℕ) (gen llm : String)
    (st : AppState) (req : FeedbackRequest)
    (hp : parseFeedbackType req.feedback_type = some FeedbackType.falsePositive)
    (hc : req.target_type = "case")
    (hnone : get_case st.cases req.target_id = none) :
    (submit_feedback now gen llm st req).map (fun s => readFpPenalty now s.memory) =
      Except.ok (min (readFpPenalty now st.memory + 0.15) 0.5) ∧
    (∀ k, k ≠ "false_positive_penalty" →
      (submit_feedback now gen llm st req).map (fun s => findEntry s.memory k) =
        Except.ok (findEntry (seedDefaultsIfEmpty now st.memory) k)) := by
  have hfp : req.feedback_type = "false_positive" := by
    unfold parseFeedbackType at hp
    split_ifs at hp with h1 h2 h3 h4 h5 <;> first | assumption | (injection hp; try simp_all)
  have hupd : update_case_status st.cases req.target_id CaseStatus.falsePositive
      = st.cases := update_case_status_missing _ _ _ hnone
  unfold submit_feedback
  simp only [hp]
  rw [save_feedback_snd]
  simp only [hc, hfp, reduceIte, String.reduceEq]
  rw [hupd]
  unfold process_feedback
  dsimp only
  simp only [hc, reduceIte, String.reduceEq]
  unfold processCaseFeedback
  dsimp only
  rw [hnone]
  constructor
  · simp only [Except.map]
    rw [readFpPenalty_set_fp]
  · intro k hk
    simp only [Except.map]
    rw [findEntry_set_ne now st.memory _ k _ _ _ hk]

/-- App state with no cases at all and default memory. -/
def c2State : AppState := ⟨⟨[]⟩, [], ⟨defaultEntries 0⟩⟩

/-- False-positive feedback aimed at a case id that matches no stored
case. -/
def c2Req : FeedbackRequest := ⟨"case", "CASE-NOPE", "false_positive", ""⟩

/-- C2 counterexample: a feedback submission whose `target_id` matches no
stored case is not rejected: the call succeeds and the Threshold Memory
entry `false_positive_penalty` changes from 0 to 0.15, so "every Threshold
Memory entry holds the same value, reason, and source after the call"
fails at this input. -/
theorem C2_counterexample :
    get_case c2State.cases c2Req.target_id = none ∧
    readFpPenalty 0 c2State.memory = 0 ∧
    (submit_feedback 0 "FB-001" "" c2State c2Req).map
        (fun s => readFpPenalty 0 s.memory) = Except.ok 0.15 ∧
    (0.15 : ℚ) ≠ 0 := by
  refine ⟨rfl, readFpPenalty_defaults 0, ?_, by norm_num⟩
  have h := (submit_fp_unknown_target_memory 0 "FB-001" "" c2State c2Req
    rfl rfl rfl).1
  rw [h, show readFpPenalty 0 c2State.memory = 0 from readFpPenalty_defaults 0]
  norm_num [min_def]

/-- C2 amended: an unknown `feedback_type` is rejected (a `ValueError`
before anything is written, so no Threshold Memory mutation happens); but
a `target_id` that matches no stored case is NOT rejected — the feedback
is accepted and a case-targeted false_positive still bumps
`false_positive_penalty` by +0.15 (capped at 0.5); only the case-type-
specific threshold adjustment is skipped, every other memory entry staying
as it was after seeding. -/
theorem C2_amended_rejection_scope :
    (∀ (now : ℕ) (gen llm : String) (st : AppState) (req : FeedbackRequest),
      parseFeedbackType req.feedback_type = none →
      submit_feedback now gen llm st req =
        Except.error "ValueError: invalid FeedbackType") ∧
    (∀ (now : ℕ) (gen llm : String) (st : AppState) (req : FeedbackRequest),
      parseFeedbackType req.feedback_type = some FeedbackType.falsePositive →
      req.target_type = "case" →
      get_case st.cases req.target_id = none →
      (submit_feedback now gen llm st req).map
          (fun s => readFpPenalty now s.memory) =
        Except.ok (min (readFpPenalty now st.memory + 0.15) 0.5) ∧
      (∀ k, k ≠ "false_positive_penalty" →
        (submit_feedback now gen llm st req).map (fun s => findEntry s.memory k) =
          Except.ok (findEntry (seedDefaultsIfEmpty now st.memory) k))) := by
  constructor
  · intro now gen llm st req h
    unfold submit_feedback
    simp only [h]
  · intro now gen llm st req hp hc hnone
    exact submit_fp_unknown_target_memory now gen llm st req hp hc hnone

/-- Witness for the amended C2: a bogus feedback type errors out; the
false-positive on the unknown case id bumps the penalty. -/
theorem C2_witness :
    submit_feedback 0 "FB-001" "" c2State ⟨"case", "CASE-NOPE", "maybe", ""⟩ =
      Except.error "ValueError: invalid FeedbackType" ∧
    (submit_feedback 0 "FB-001" "" c2State c2Req).map
        (fun s => readFpPenalty 0 s.memory) =
      Except.ok (min (readFpPenalty 0 c2State.memory + 0.15) 0.5) :=
  ⟨C2_amended_rejection_scope.1 0 "FB-001" "" c2State _ rfl,
   (C2_amended_rejection_scope.2 0 "FB-001" "" c2State c2Req rfl rfl rfl).1⟩

/-! ## C6 — clearing of prior-run cases -/

theorem mem_save_case (cs : CaseStore) (a c : TriageCase)
    (h : c ∈ (save_case cs a).cases) : c ∈ cs.cases ∨ c = a := by
  unfold save_case at h
  split at h
  · rw [List.mem_map] at h
    obtain ⟨r, hr, hrc⟩ := h
    by_cases hid : r.case_id = a.case_id
    · rw [if_pos hid] at hrc
      exact Or.inr hrc.symm
    · rw [if_neg hid] at hrc
      exact Or.inl (hrc ▸ hr)
  · rw [List.mem_append] at h
    rcases h with h | h
    · exact Or.inl h
    · exact Or.inr (List.mem_singleton.mp h)

theorem mem_save_cases (l : List TriageCase) (cs : CaseStore) (c : TriageCase)
    (h : c ∈ (save_cases cs l).cases) : c ∈ cs.cases ∨ c ∈ l := by
  induction l generalizing cs with
  | nil => exact Or.inl h
  | cons a t ih =>
    rcases ih (save_case cs a) h with h' | h'
    · rcases mem_save_case cs a c h' with h2 | h2
      · exact Or.inl h2
      · exact Or.inr (h2 ▸ List.mem_cons_self a t)
    · exact Or.inr (List.mem_cons_of_mem a h')

/-- Every case persisted by a `run_triage` that starts from a cleared
store carries the run id the run used. -/
theorem run_triage_cleared_all_new (now : ℕ) (gen : String)
    (analyze : List String → String → String → Option String) (db : Database)
    (mem : MemoryStore) (fb : List FeedbackItem) (cs : CaseStore)
    (ridOpt : Option String) :
    ((run_triage now gen analyze db mem fb (clear_cases cs) ridOpt).1.cases.all
      (fun c => c.run_id =
        (match ridOpt with
         | none => gen
         | some r => if r = "" then gen else r))) = true := by
  rw [List.all_eq_true]
  intro c hc
  unfold run_triage at hc
  by_cases hraw : (run_all_detectors now mem db).isEmpty
  · rw [if_pos hraw] at hc
    exact absurd hc (List.not_mem_nil c)
  · rw [if_neg hraw] at hc
    dsimp only at hc
    rcases mem_save_cases _ (clear_cases cs) c hc with h' | h'
    · exact absurd h' (List.not_mem_nil c)
    · rw [List.mem_map] at h'
      obtain ⟨c0, hc0, hcc⟩ := h'
      rw [List.mem_map] at hc0
      obtain ⟨p, _, hp⟩ := hc0
      subst hcc
      subst hp
      simp [anomalyToCase]

/-- A stored case left over from an earlier run. -/
def c6OldCase : TriageCase :=
  { case_id := "CASE-UND-old999-00", run_id := "RUN-old",
    title := "Underbilling: Acme Corp (INV000)", anomaly_type := "underbilling",
    severity := .high, confidence := .high, estimated_impact := 55,
    evidence := [], affected_entities := [], recommended_action := "",
    status := .openCase, created_at := 0, sentiment_score := none }

/-- An empty tabular snapshot (all detectors return nothing). -/
def emptyDb : Database := ⟨[], [], [], []⟩

/-- C6 counterexample: `run_triage` itself deletes nothing.  Invoked
directly (as the repository's tests do) with a case from an earlier run
still stored, the run completes and the prior-run case is still there, so
"after it completes the case store contains only cases whose run_id is
the new run's id" fails at this input. -/
theorem C6_counterexample :
    (run_triage 0 "RUN-gen1" (fun _ _ _ => none) emptyDb ⟨defaultEntries 0⟩ []
        ⟨[c6OldCase]⟩ (some "RUN-new")).1 = ⟨[c6OldCase]⟩ ∧
    c6OldCase ∈ (run_triage 0 "RUN-gen1" (fun _ _ _ => none) emptyDb
        ⟨defaultEntries 0⟩ [] ⟨[c6OldCase]⟩ (some "RUN-new")).1.cases ∧
    c6OldCase.run_id ≠ "RUN-new" := by
  refine ⟨rfl, ?_, by decide⟩
  rw [show (run_triage 0 "RUN-gen1" (fun _ _ _ => none) emptyDb ⟨defaultEntries 0⟩ []
      ⟨[c6OldCase]⟩ (some "RUN-new")).1 = ⟨[c6OldCase]⟩ from rfl]
  exact List.mem_singleton.mpr rfl

/-- C6 amended: the clearing of prior-run cases is done by `run_triage`'s
callers, not by `run_triage` itself: both the `POST /triage/rerun` route
and the orchestrator call `clear_cases()` first, and after those
composite operations the case store contains only cases carrying the new
run's id.  `run_triage` invoked directly leaves prior cases in place (see
the counterexample). -/
theorem C6_amended_callers_clear (now : ℕ) (gen : String)
    (analyze : List String → String → String → Option String) (db : Database)
    (mem : MemoryStore) (fb : List FeedbackItem) (cs : CaseStore) (rid : String) :
    ((rerun_triage now gen analyze db mem fb cs).1.cases.all
      (fun c => c.run_id = gen)) = true ∧
    ((orchestratorTriage now gen analyze db mem fb cs rid).1.cases.all
      (fun c => c.run_id = (if rid = "" then gen else rid))) = true :=
  ⟨run_triage_cleared_all_new now gen analyze db mem fb cs none,
   run_triage_cleared_all_new now gen analyze db mem fb cs (some rid)⟩

end OpsIQ
